import Mathlib

/-!
Verification development for the product-feedback dashboard worker.

The definitions below are a shallow embedding of the TypeScript source:

* `src/AI_SUMMARY_CHANGES.md` (the worker `index.ts`: `/api/stats` handler,
  `POST /ingest` handler, `inferFeedbackMetadata`, `mockAiInference`,
  `sanitizeChoice`, `sanitizeNullable`),
* `src/scheduled-handler.ts` (`handleScheduled`, `analyzeFeedback`,
  `sendToSlack`, `logAnalysis`),
* `src/unnamed/part_002` (`DailyAnalysisWorkflow`: `run`, `analyzeWithAI`,
  `generateInsights`, `sendToSlack`, `logAnalysis`),
* `src/unnamed/part_003` (`isValidSlackWebhook`).

JavaScript idioms are modelled explicitly: nullable strings are `Option
String`, the `x || d` defaulting on strings treats both `null` and `""`
as falsy, object maps with insertion order are association lists, the
stable `Array.prototype.sort` with comparator `(a, b) => b.count - a.count`
is a stable descending insertion sort, and platform builtins
(`Date.parse`, `JSON.parse`, network calls) are passed in as explicit
collaborator functions / outcome values.
-/

/-- JS string defaulting `v || d` where `v : string | null`: both `null`
and the empty string fall through to the default. -/
def jsOr (v : Option String) (d : String) : String :=
  match v with
  | none => d
  | some s => if s = "" then d else s

/-- JS truthiness of a `string | undefined` value (`!v` is true exactly on
`undefined`/`null`/`""`). -/
def jsTruthy (v : Option String) : Bool :=
  match v with
  | none => false
  | some s => s != ""

/-- `s.toLowerCase()`, character-wise (the feedback texts are ASCII). -/
def toLowerStr (s : String) : String :=
  String.mk (s.toList.map Char.toLower)

/-- `s.slice(0, n)` / the first `n` characters. -/
def strTake (s : String) (n : Nat) : String :=
  String.mk (s.toList.take n)

/-- `s.trim()`: strip leading and trailing whitespace. -/
def strTrim (s : String) : String :=
  String.mk
    (((s.toList.dropWhile Char.isWhitespace).reverse.dropWhile
        Char.isWhitespace).reverse)

/-- A `feedback` row (table `feedback` of `0001_init.sql`, interface
`FeedbackRecord` in the worker): `id`, `source`, `raw_text`, `created_at`
are NOT NULL, the five label fields are nullable. -/
structure FeedbackRecord where
  id : String
  source : String
  raw_text : String
  sentiment : Option String
  priority : Option String
  category : Option String
  summary : Option String
  priority_reason : Option String
  created_at : String
deriving Repr, DecidableEq

/-- The label object the AI step returns (`type AiAutoLabels`): every key
optional, `reason` being a fallback key some models use. -/
structure AiAutoLabels where
  sentiment : Option String := none
  priority : Option String := none
  category : Option String := none
  summary : Option String := none
  priority_reason : Option String := none
  reason : Option String := none
deriving Repr, DecidableEq

/-- `const PRIORITIES = ["P0", "P1", "P2", "P3"]`. -/
def PRIORITIES : List String := ["P0", "P1", "P2", "P3"]

/-- `const SENTIMENTS = ["negative", "neutral", "positive"]`. -/
def SENTIMENTS : List String := ["negative", "neutral", "positive"]

/-- `stats.byX[k] = (stats.byX[k] || 0) + 1` on a JS object used as a
counter map (string keys, insertion order preserved), modelled on an
association list: increment in place if the key exists, else append with
count 1. -/
def bump : List (String × Nat) → String → List (String × Nat)
  | [], k => [(k, 1)]
  | (k', v) :: rest, k =>
      if k' = k then (k', v + 1) :: rest else (k', v) :: bump rest k

/-- One counting pass `records.forEach(r => m[key r] += 1)` starting from
the empty object. -/
def countBy (key : FeedbackRecord → String) (records : List FeedbackRecord) :
    List (String × Nat) :=
  records.foldl (fun m r => bump m (key r)) []

/-- Sum of a counter map's values (`sum(m.values())`). -/
def sumVals (m : List (String × Nat)) : Nat :=
  (m.map Prod.snd).sum

theorem sumVals_bump (m : List (String × Nat)) (k : String) :
    sumVals (bump m k) = sumVals m + 1 := by
  induction m with
  | nil => rfl
  | cons p rest ih =>
      obtain ⟨k', v⟩ := p
      by_cases h : k' = k
      · simp [bump, h, sumVals]
        ring
      · simp [bump, h, sumVals] at ih ⊢
        omega

theorem sumVals_countBy_go (key : FeedbackRecord → String)
    (records : List FeedbackRecord) (m : List (String × Nat)) :
    sumVals (records.foldl (fun m r => bump m (key r)) m)
      = sumVals m + records.length := by
  induction records generalizing m with
  | nil => simp
  | cons r rest ih =>
      simp only [List.foldl_cons, List.length_cons, ih, sumVals_bump]
      omega

/-- Each record contributes exactly one count: the values of a counting
pass sum to the record count. -/
theorem sumVals_countBy (key : FeedbackRecord → String)
    (records : List FeedbackRecord) :
    sumVals (countBy key records) = records.length := by
  simpa [countBy, sumVals] using sumVals_countBy_go key records []

/-- A JS regex word character `\w = [A-Za-z0-9_]` (the text the worker
matches against has already been lower-cased, so the upper-case range is
vacuous there). -/
def isWordChar (c : Char) : Bool :=
  (Char.ofNat 97 ≤ c && c ≤ Char.ofNat 122)
    || (Char.ofNat 48 ≤ c && c ≤ Char.ofNat 57)
    || c = Char.ofNat 95
    || (Char.ofNat 65 ≤ c && c ≤ Char.ofNat 90)

/-- ASCII lower-case letter, the character class `[a-z]`. -/
def isLowerAlpha (c : Char) : Bool :=
  Char.ofNat 97 ≤ c && c ≤ Char.ofNat 122

/-- `text.match(/\b[a-z]{3,}\b/g) || []`: the matches are exactly the
maximal runs of word characters that consist solely of `[a-z]` and have
length at least 3 (a run touching a digit or underscore fails the word
boundary, a shorter run fails the quantifier). -/
def tokenize (text : String) : List String :=
  ((text.toList.splitOnP (fun c => !isWordChar c)).filter
      (fun run => 3 ≤ run.length && run.all isLowerAlpha)).map
    fun run => String.mk run

/-- The stopword set built inside the `/api/stats` word loop. -/
def stopwordList : List String :=
  ["the", "and", "for", "with", "that", "this", "from", "are", "but",
   "can", "has", "have", "been", "one", "like", "when", "where", "what",
   "which", "who", "why", "how"]

/-- `(feedback.summary || feedback.raw_text || "").toLowerCase()`:
the text a record contributes words from. -/
def wordSourceText (r : FeedbackRecord) : String :=
  toLowerStr (jsOr r.summary r.raw_text)

/-- The tokens one record contributes to the frequency map, after the
stopword filter. -/
def keptTokens (r : FeedbackRecord) : List String :=
  (tokenize (wordSourceText r)).filter fun w => !stopwordList.contains w

/-- The `wordFreq` map accumulated across all records in the
`/api/stats` handler. -/
def wordFreq (records : List FeedbackRecord) : List (String × Nat) :=
  records.foldl (fun m r => (keptTokens r).foldl bump m) []

/-- Insert one element into a list already sorted descending by `key`,
after every element of equal or larger key: the insertion step of a
stable descending sort. -/
def insDesc (key : α → Nat) (x : α) : List α → List α
  | [] => [x]
  | y :: ys => if key x ≤ key y then y :: insDesc key x ys else x :: y :: ys

/-- JS `Array.prototype.sort((a, b) => key b - key a)`: the ECMAScript
sort is stable, so on a descending-by-key comparator it is the stable
descending insertion sort. -/
def sortDescBy (key : α → Nat) (l : List α) : List α :=
  l.foldl (fun acc x => insDesc key x acc) []

theorem mem_insDesc (key : α → Nat) (x a : α) (l : List α) :
    a ∈ insDesc key x l → a = x ∨ a ∈ l := by
  induction l with
  | nil => simp [insDesc]
  | cons y ys ih =>
      by_cases h : key x ≤ key y
      · simp only [insDesc, if_pos h, List.mem_cons]
        rintro (rfl | hmem)
        · exact Or.inr (Or.inl rfl)
        · rcases ih hmem with h' | h'
          · exact Or.inl h'
          · exact Or.inr (Or.inr h')
      · simp only [insDesc, if_neg h, List.mem_cons]
        rintro (rfl | rfl | hmem)
        · exact Or.inl rfl
        · exact Or.inr (Or.inl rfl)
        · exact Or.inr (Or.inr hmem)

theorem pairwise_insDesc (key : α → Nat) (x : α) (l : List α)
    (hl : l.Pairwise (fun a b => key b ≤ key a)) :
    (insDesc key x l).Pairwise (fun a b => key b ≤ key a) := by
  induction l with
  | nil => simp [insDesc]
  | cons y ys ih =>
      rcases List.pairwise_cons.mp hl with ⟨hy, hys⟩
      by_cases h : key x ≤ key y
      · rw [insDesc, if_pos h]
        refine List.pairwise_cons.mpr ⟨?_, ih hys⟩
        intro a ha
        rcases mem_insDesc key x a ys ha with rfl | ha'
        · exact h
        · exact hy a ha'
      · rw [insDesc, if_neg h]
        refine List.pairwise_cons.mpr ⟨?_, hl⟩
        intro a ha
        rcases List.mem_cons.mp ha with rfl | ha'
        · omega
        · exact le_trans (hy a ha') (by omega)

theorem pairwise_sortDescBy_go (key : α → Nat) (l acc : List α)
    (hacc : acc.Pairwise (fun a b => key b ≤ key a)) :
    (l.foldl (fun acc x => insDesc key x acc) acc).Pairwise
      (fun a b => key b ≤ key a) := by
  induction l generalizing acc with
  | nil => simpa
  | cons x xs ih => exact ih _ (pairwise_insDesc key x acc hacc)

/-- The stable descending sort really is sorted descending by key. -/
theorem pairwise_sortDescBy (key : α → Nat) (l : List α) :
    (sortDescBy key l).Pairwise (fun a b => key b ≤ key a) :=
  pairwise_sortDescBy_go key l [] (by simp)

theorem mem_sortDescBy_go (key : α → Nat) (l acc : List α) (a : α) :
    a ∈ l.foldl (fun acc x => insDesc key x acc) acc → a ∈ acc ∨ a ∈ l := by
  induction l generalizing acc with
  | nil => simp
  | cons x xs ih =>
      intro h
      rcases ih (insDesc key x acc) h with h' | h'
      · rcases mem_insDesc key x a acc h' with rfl | h''
        · exact Or.inr (List.mem_cons_self _ _)
        · exact Or.inl h''
      · exact Or.inr (List.mem_cons_of_mem _ h')

/-- Sorting introduces no new elements. -/
theorem mem_sortDescBy (key : α → Nat) (l : List α) (a : α) :
    a ∈ sortDescBy key l → a ∈ l := by
  intro h
  rcases mem_sortDescBy_go key l [] a h with h' | h'
  · cases h'
  · exact h'

/-- `stats.topWords` of the `/api/stats` handler: frequency-map entries
in insertion (first-seen) order, stable-sorted descending by count,
first 50 kept. -/
def topWordsOf (records : List FeedbackRecord) : List (String × Nat) :=
  (sortDescBy Prod.snd (wordFreq records)).take 50

/-- The trailing 7-day window in milliseconds,
`7 * 24 * 60 * 60 * 1000`. -/
def sevenDaysMs : Int := 7 * 24 * 60 * 60 * 1000

/-- `new Date(r.created_at).getTime() > sevenDaysAgo` where the `Date`
parser is the platform collaborator `parse` (`none` models `NaN`, and
any comparison against `NaN` is false). -/
def isRecent (parse : String → Option Int) (now : Int)
    (r : FeedbackRecord) : Bool :=
  match parse r.created_at with
  | some t => now - sevenDaysMs < t
  | none => false

/-- The aggregate object the `/api/stats` handler returns. -/
structure AggregateStats where
  total : Nat
  byPriority : List (String × Nat)
  bySentiment : List (String × Nat)
  byCategory : List (String × Nat)
  last7Days : Nat
  topWords : List (String × Nat)
deriving Repr, DecidableEq

/-- The `/api/stats` aggregation pass: distribution maps with the
`"unknown"`/`"other"` sentinels, the strict 7-day recency count, and the
ranked word list. The single `forEach` of the source updates each
component independently, so the pass is stated component-wise. -/
def aggregateStats (parse : String → Option Int) (now : Int)
    (records : List FeedbackRecord) : AggregateStats :=
  { total := records.length
    byPriority := countBy (fun r => jsOr r.priority "unknown") records
    bySentiment := countBy (fun r => jsOr r.sentiment "unknown") records
    byCategory := countBy (fun r => jsOr r.category "other") records
    last7Days := (records.filter (isRecent parse now)).length
    topWords := topWordsOf records }

/-- `w` is a prefix of `s` (character lists). -/
def charsHavePre : List Char → List Char → Bool
  | [], _ => true
  | _ :: _, [] => false
  | a :: as, b :: bs => a = b && charsHavePre as bs

/-- `w` occurs somewhere in `s` (character lists). -/
def charsHaveSub (w : List Char) : List Char → Bool
  | [] => w.isEmpty
  | c :: cs => charsHavePre w (c :: cs) || charsHaveSub w cs

/-- JS `s.includes(w)`. -/
def jsIncludes (s w : String) : Bool :=
  charsHaveSub w.toList s.toList

/-- `negativeWords` of `mockAiInference`. -/
def negativeWords : List String :=
  ["crash", "fail", "error", "bug", "slow", "break", "issue", "problem",
   "broken"]

/-- `positiveWords` of `mockAiInference`. -/
def positiveWords : List String :=
  ["great", "awesome", "love", "excellent", "nice", "good"]

/-- The rule-based heuristic classifier `mockAiInference` used in mock
(deterministic) mode: keyword scans over the lower-cased text pick the
sentiment, the priority/category pair, then the category overrides, and
a templated summary and priority reason are attached. -/
def mockAiInference (text : String) : AiAutoLabels :=
  let lowerText := toLowerStr text
  let sentiment :=
    if negativeWords.any (fun w => jsIncludes lowerText w) then "negative"
    else if positiveWords.any (fun w => jsIncludes lowerText w) then "positive"
    else "neutral"
  let pc :=
    if jsIncludes lowerText "outage" || jsIncludes lowerText "down"
        || jsIncludes lowerText "data loss"
        || jsIncludes lowerText "security" then
      ("P0", if jsIncludes lowerText "security" then "security" else "bug")
    else if jsIncludes lowerText "crash" || jsIncludes lowerText "blocked"
        || jsIncludes lowerText "blocks all" then
      ("P1", "bug")
    else if jsIncludes lowerText "slow" then
      ("P1", "performance")
    else if jsIncludes lowerText "feature" || jsIncludes lowerText "request"
        || jsIncludes lowerText "like to" then
      ("P3", "feature_request")
    else
      ("P3", "other")
  let priority := pc.1
  let cat0 := pc.2
  let cat1 := if jsIncludes lowerText "perform" then "performance" else cat0
  let cat2 := if jsIncludes lowerText "doc" then "docs" else cat1
  let cat3 :=
    if jsIncludes lowerText "billing" || jsIncludes lowerText "payment" then
      "billing"
    else cat2
  let category :=
    if jsIncludes lowerText "ui" || jsIncludes lowerText "ux" then "ux"
    else cat3
  { sentiment := some sentiment
    priority := some priority
    category := some category
    summary := some (strTake text 120)
    priority_reason := some (priority ++ " priority due to " ++ sentiment
      ++ " sentiment and " ++ category ++ " issue")
    reason := none }

/-- A JSON-like JS value, the shape space of an inference response. -/
inductive JsVal where
  | str (s : String)
  | num (n : Int)
  | boolv (b : Bool)
  | nullv
  | arr (xs : List JsVal)
  | obj (fields : List (String × JsVal))

/-- JS falsiness of a value (`!response`). -/
def jsFalsyVal : JsVal → Bool
  | .str s => s = ""
  | .num n => n = 0
  | .boolv b => !b
  | .nullv => true
  | .arr _ => false
  | .obj _ => false

/-- JS property access `obj[key]` on a parsed object. -/
def lookupField (fields : List (String × JsVal)) (k : String) : Option JsVal :=
  (fields.find? (fun p => p.1 = k)).map Prod.snd

/-- One step of the key probe in `pickAiText`: the value at `k` if it is
a string with non-empty trim. -/
def stringAtKey (fields : List (String × JsVal)) (k : String) :
    Option String :=
  match lookupField fields k with
  | some (.str v) => if strTrim v ≠ "" then some v else none
  | _ => none

/-- The ordered key list probed by `pickAiText`. -/
def pickKeys : List String :=
  ["response", "result", "text", "output", "content"]

/-- The `messages`-array fallback of `pickAiText`: the `content` string
of the last message, when present and trim-non-empty. -/
def messagesContent (fields : List (String × JsVal)) : Option String :=
  match lookupField fields "messages" with
  | some (.arr msgs) =>
      match msgs.getLast? with
      | some (.obj mf) =>
          match lookupField mf "content" with
          | some (.str c) => if strTrim c ≠ "" then some c else none
          | _ => none
      | _ => none
  | _ => none

/-- `pickAiText(response)`: a falsy response yields `null`; a string is
returned as-is; on an object the known keys are probed in order, then
the `messages` array; anything else yields `null`. -/
def pickAiText (response : Option JsVal) : Option String :=
  match response with
  | none => none
  | some v =>
      if jsFalsyVal v then none
      else
        match v with
        | .str s => some s
        | .obj fields =>
            match pickKeys.findSome? (stringAtKey fields) with
            | some t => some t
            | none => messagesContent fields
        | _ => none

/-- The character `{`. -/
def braceOpen : Char := Char.ofNat 123

/-- The character `}`. -/
def braceClose : Char := Char.ofNat 125

/-- `lastIndexOf`: index of the last occurrence of `c` in `l`. -/
def lastIdxOf (l : List Char) (c : Char) : Option Nat :=
  match l.reverse.indexOf? c with
  | some i => some (l.length - 1 - i)
  | none => none

/-- `safeParseAiJson`: trim, slice out the first `{` … last `}` span,
and hand it to the platform `JSON.parse` (the collaborator `jsonParse`,
which also models the `typeof json === "object"` check and the cast to
`AiAutoLabels`); any failure is `null`, never an exception. -/
def safeParseAiJson (jsonParse : String → Option AiAutoLabels)
    (text : String) : Option AiAutoLabels :=
  let cs := (strTrim text).toList
  match cs.indexOf? braceOpen, lastIdxOf cs braceClose with
  | some start, some stop =>
      if stop ≤ start then none
      else jsonParse (String.mk ((cs.drop start).take (stop + 1 - start)))
  | _, _ => none

/-- The classifier's environment slice: whether the AI binding exists
(`!!env.AI`) and the raw `USE_MOCK_AI` variable. -/
structure ClassifierEnv where
  aiConfigured : Bool
  useMockAi : Option String
deriving Repr, DecidableEq

/-- `inferFeedbackMetadata`: the labeling entry point. `aiCall` is the
transport outcome of `ai.run` (`.error` models a thrown exception, which
the source catches and converts to `null`), `jsonParse` the platform
JSON parser. The `source` tag is only interpolated into the prompt and
never branches, so it is omitted. -/
def inferFeedbackMetadata (env : ClassifierEnv) (text : String)
    (aiCall : Except Unit (Option JsVal))
    (jsonParse : String → Option AiAutoLabels) : Option AiAutoLabels :=
  if !env.aiConfigured && !jsTruthy env.useMockAi then none
  else if text = "" then none
  else if env.useMockAi = some "true" then some (mockAiInference text)
  else
    match aiCall with
    | .error _ => none
    | .ok response =>
        match pickAiText response with
        | none => none
        | some t => safeParseAiJson jsonParse t

/-- `sanitizeChoice`: keep the value only on an exact taxonomy match. -/
def sanitizeChoice (value : Option String) (allowed : List String) :
    Option String :=
  match value with
  | none => none
  | some s => if allowed.contains s then some s else none

/-- `sanitizeNullable`: trim, empty becomes `null`. -/
def sanitizeNullable (value : Option String) : Option String :=
  match value with
  | none => none
  | some s => if strTrim s = "" then none else some (strTrim s)

/-- JS nullish coalescing `a ?? b` on nullable strings (an empty string
on the left is kept, unlike `||`). -/
def nullish (a b : Option String) : Option String :=
  match a with
  | none => b
  | some s => some s

/-- The JSON body accepted by `POST /ingest`. -/
structure IngestPayload where
  source : Option String := none
  raw_text : Option String := none
  sentiment : Option String := none
  priority : Option String := none
  category : Option String := none
  summary : Option String := none
  priority_reason : Option String := none
  created_at : Option String := none
deriving Repr, DecidableEq

/-- The `POST /ingest` handler after JSON parsing: validate `source` and
`raw_text`, merge caller overrides over the classifier labels, default
the summary to the first 120 characters of the raw text, and build the
row to insert. `none` models the 400 response for missing fields;
`aiLabels` is the classifier result, `nowIso` the current instant,
`newId` the generated UUID. -/
def postIngest (payload : IngestPayload) (aiLabels : Option AiAutoLabels)
    (nowIso : String) (newId : String) : Option FeedbackRecord :=
  let source := strTrim (payload.source.getD "")
  let rawText := strTrim (payload.raw_text.getD "")
  if source = "" || rawText = "" then none
  else
    some
      { id := newId
        source := source
        raw_text := rawText
        sentiment := sanitizeChoice
          (nullish payload.sentiment (aiLabels.bind AiAutoLabels.sentiment))
          SENTIMENTS
        priority := sanitizeChoice
          (nullish payload.priority (aiLabels.bind AiAutoLabels.priority))
          PRIORITIES
        category := sanitizeNullable
          (nullish payload.category (aiLabels.bind AiAutoLabels.category))
        summary := some (jsOr
          (sanitizeNullable
            (nullish payload.summary (aiLabels.bind AiAutoLabels.summary)))
          (strTake rawText 120))
        priority_reason := sanitizeNullable
          (nullish payload.priority_reason
            (nullish (aiLabels.bind AiAutoLabels.priority_reason)
              (aiLabels.bind AiAutoLabels.reason)))
        created_at := (sanitizeNullable payload.created_at).getD nowIso }

/-- The workflow's `AnalysisResult` (`src/unnamed/part_002`): urgent
items carried as a record list. A top issue is
`(summary text, count, sentiment)`. -/
structure AnalysisResult where
  totalFeedback : Nat
  byPriority : List (String × Nat)
  bySentiment : List (String × Nat)
  byCategory : List (String × Nat)
  topIssues : List (String × Nat × String)
  recommendedActions : List String
  urgentItems : List FeedbackRecord
deriving Repr, DecidableEq

/-- The scheduled handler's `AnalysisResult`
(`src/scheduled-handler.ts`): urgent items carried as a bare count. -/
structure AnalysisResultS where
  totalFeedback : Nat
  byPriority : List (String × Nat)
  bySentiment : List (String × Nat)
  byCategory : List (String × Nat)
  topIssues : List (String × Nat × String)
  recommendedActions : List String
  urgentCount : Nat
deriving Repr, DecidableEq

/-- The urgency test of the analysis passes:
`(item.priority || "unknown") === "P0" || … === "P1"`. -/
def urgentKey (r : FeedbackRecord) : Bool :=
  let p := jsOr r.priority "unknown"
  p = "P0" || p = "P1"

/-- The urgency test of the scheduled `sendToSlack` payload filter:
`item.priority === "P0" || item.priority === "P1"` on the raw field. -/
def urgentStrict (r : FeedbackRecord) : Bool :=
  r.priority = some "P0" || r.priority = some "P1"

/-- `issues.set(summary, existing)` with
`existing = issues.get(summary) || {count: 0, sentiment: item.sentiment || "neutral"}`:
increment in place, the sentiment frozen at first insertion. -/
def bumpIssue : List (String × Nat × String) → String → String →
    List (String × Nat × String)
  | [], k, sent => [(k, 1, sent)]
  | (k', c, s0) :: rest, k, sent =>
      if k' = k then (k', c + 1, s0) :: rest
      else (k', c, s0) :: bumpIssue rest k sent

/-- The `issues` map accumulated over the records (only records with a
truthy `summary` contribute). -/
def issuesOf (records : List FeedbackRecord) : List (String × Nat × String) :=
  records.foldl
    (fun m r =>
      match r.summary with
      | some s =>
          if s = "" then m else bumpIssue m s (jsOr r.sentiment "neutral")
      | none => m)
    []

/-- `topIssues`: the issue map's entries stable-sorted descending by
count and cut to the first 5. -/
def topIssuesOf (records : List FeedbackRecord) :
    List (String × Nat × String) :=
  (sortDescBy (fun t => t.2.1) (issuesOf records)).take 5

/-- The fixed fallback recommendations used when the AI call throws. -/
def fallbackActions : List String :=
  ["Review high-priority feedback items",
   "Investigate recurring issues",
   "Follow up with affected customers"]

/-- The newline character. -/
def newlineChar : Char := Char.ofNat 10

/-- `response.result.response.split("\n").filter(line => line.trim().length > 0)`. -/
def splitActions (txt : String) : List String :=
  ((txt.toList.splitOnP (fun c => c = newlineChar)).map String.mk).filter
    fun line => strTrim line ≠ ""

/-- The recommended-actions step of the workflow `analyzeWithAI`: only
runs when the AI binding exists and there are top issues; a thrown call
(`.error`) yields the fixed fallback; a response without a usable
`result.response` string (`.ok none`) leaves the list empty; the
workflow variant does not cap the parsed list. -/
def recommendedActionsW (aiConfigured : Bool)
    (aiOutcome : Except Unit (Option String))
    (topIssues : List (String × Nat × String)) : List String :=
  if aiConfigured && topIssues.length != 0 then
    match aiOutcome with
    | .error _ => fallbackActions
    | .ok none => []
    | .ok (some txt) => splitActions txt
  else []

/-- Same step in the scheduled handler's `analyzeFeedback`, which
additionally slices the parsed list to 4. -/
def recommendedActionsS (aiConfigured : Bool)
    (aiOutcome : Except Unit (Option String))
    (topIssues : List (String × Nat × String)) : List String :=
  if aiConfigured && topIssues.length != 0 then
    match aiOutcome with
    | .error _ => fallbackActions
    | .ok none => []
    | .ok (some txt) => (splitActions txt).take 4
  else []

/-- `DailyAnalysisWorkflow.analyzeWithAI`: zero records short-circuit to
the all-empty result; otherwise one counting pass (distribution maps,
urgent item collection, issue grouping) followed by the AI
recommendation step. `aiOutcome` is the `env.AI.run` collaborator
outcome (`.error` = thrown, `.ok none` = no `result.response` string,
`.ok (some txt)` = the response text). -/
def analyzeWithAI (records : List FeedbackRecord) (aiConfigured : Bool)
    (aiOutcome : Except Unit (Option String)) : AnalysisResult :=
  if records.length = 0 then
    { totalFeedback := 0, byPriority := [], bySentiment := [],
      byCategory := [], topIssues := [], recommendedActions := [],
      urgentItems := [] }
  else
    { totalFeedback := records.length
      byPriority := countBy (fun r => jsOr r.priority "unknown") records
      bySentiment := countBy (fun r => jsOr r.sentiment "unknown") records
      byCategory := countBy (fun r => jsOr r.category "other") records
      topIssues := topIssuesOf records
      recommendedActions :=
        recommendedActionsW aiConfigured aiOutcome (topIssuesOf records)
      urgentItems := records.filter urgentKey }

/-- `DailyAnalysisWorkflow.generateInsights`: passes the analysis
through, slicing the urgent items to the top 5. -/
def generateInsights (analysis : AnalysisResult) : AnalysisResult :=
  { analysis with urgentItems := analysis.urgentItems.take 5 }

/-- `analyzeFeedback` of the scheduled handler: same counting pass but
the urgent items are kept only as `urgentCount`, and no zero-record
short-circuit (the caller guards emptiness). -/
def analyzeFeedback (records : List FeedbackRecord) (aiConfigured : Bool)
    (aiOutcome : Except Unit (Option String)) : AnalysisResultS :=
  { totalFeedback := records.length
    byPriority := countBy (fun r => jsOr r.priority "unknown") records
    bySentiment := countBy (fun r => jsOr r.sentiment "unknown") records
    byCategory := countBy (fun r => jsOr r.category "other") records
    topIssues := topIssuesOf records
    recommendedActions :=
      recommendedActionsS aiConfigured aiOutcome (topIssuesOf records)
    urgentCount := (records.filter urgentKey).length }

/-- `m.k || 0` on a counter map. -/
def lookupOr (m : List (String × Nat)) (k : String) : Nat :=
  match m.find? (fun p => p.1 = k) with
  | some p => p.2
  | none => 0

/-- One `analysis_logs` row (`INSERT INTO analysis_logs …`); `data` holds
the serialized analysis, kept here as the value itself
(`JSON.stringify` is injective on it). -/
structure LogEntry (α : Type) where
  timestamp : String
  total_feedback : Nat
  negative_count : Nat
  p0_count : Nat
  p1_count : Nat
  data : α
deriving Repr, DecidableEq

/-- The row written by the workflow's `logAnalysis`. -/
def mkLogEntry (nowIso : String) (insights : AnalysisResult) :
    LogEntry AnalysisResult :=
  { timestamp := nowIso
    total_feedback := insights.totalFeedback
    negative_count := lookupOr insights.bySentiment "negative"
    p0_count := lookupOr insights.byPriority "P0"
    p1_count := lookupOr insights.byPriority "P1"
    data := insights }

/-- The row written by the scheduled handler's `logAnalysis`. -/
def mkLogEntryS (nowIso : String) (analysis : AnalysisResultS) :
    LogEntry AnalysisResultS :=
  { timestamp := nowIso
    total_feedback := analysis.totalFeedback
    negative_count := lookupOr analysis.bySentiment "negative"
    p0_count := lookupOr analysis.byPriority "P0"
    p1_count := lookupOr analysis.byPriority "P1"
    data := analysis }

/-- What the Slack message shows, abstracted from block formatting: the
four metric fields, the issue/action slices, and the urgent section
(reported count plus the items listed), present only when the count used
for it is positive. -/
structure SlackPayload where
  totalShown : Nat
  negativeShown : Nat
  p0Shown : Nat
  p1Shown : Nat
  topIssuesShown : List (String × Nat × String)
  actionsShown : List String
  urgentSection : Option (Nat × List FeedbackRecord)
deriving Repr, DecidableEq

/-- The message built by the workflow's `sendToSlack`: issues sliced to
3, actions sliced to 3, urgent section gated on and counting the
already-capped `insights.urgentItems`, listing its first 3. -/
def buildSlackPayload (insights : AnalysisResult) : SlackPayload :=
  { totalShown := insights.totalFeedback
    negativeShown := lookupOr insights.bySentiment "negative"
    p0Shown := lookupOr insights.byPriority "P0"
    p1Shown := lookupOr insights.byPriority "P1"
    topIssuesShown := insights.topIssues.take 3
    actionsShown := insights.recommendedActions.take 3
    urgentSection :=
      if insights.urgentItems.length > 0 then
        some (insights.urgentItems.length, insights.urgentItems.take 3)
      else none }

/-- The message built by the scheduled handler's `sendToSlack`: actions
not sliced there (already capped at 4 upstream), urgent section gated on
the full `urgentCount` and listing the first 3 strictly-P0/P1 records of
the fetched data. -/
def buildSlackPayloadS (analysis : AnalysisResultS)
    (feedbackData : List FeedbackRecord) : SlackPayload :=
  { totalShown := analysis.totalFeedback
    negativeShown := lookupOr analysis.bySentiment "negative"
    p0Shown := lookupOr analysis.byPriority "P0"
    p1Shown := lookupOr analysis.byPriority "P1"
    topIssuesShown := analysis.topIssues.take 3
    actionsShown := analysis.recommendedActions
    urgentSection :=
      if analysis.urgentCount > 0 then
        some (analysis.urgentCount, (feedbackData.filter urgentStrict).take 3)
      else none }

/-- ASCII letter. -/
def isAsciiAlpha (c : Char) : Bool :=
  isLowerAlpha c || (Char.ofNat 65 ≤ c && c ≤ Char.ofNat 90)

/-- A character allowed in a URL scheme:
`ALPHA *( ALPHA / DIGIT / "+" / "-" / "." )`. -/
def isSchemeChar (c : Char) : Bool :=
  isAsciiAlpha c || (Char.ofNat 48 ≤ c && c ≤ Char.ofNat 57)
    || c = '+' || c = '-' || c = '.'

/-- The WHATWG special schemes whose host is lower-cased and (except
`file`) must be non-empty. -/
def specialSchemes : List String :=
  ["http", "https", "ws", "wss", "ftp", "file"]

/-- What `new URL(u)` exposes of a parsed URL that this development
uses: the hostname (userinfo and port stripped, lower-cased for special
schemes) and the pathname. -/
structure JsURL where
  hostname : String
  pathname : String
deriving Repr, DecidableEq

/-- The `new URL` platform builtin on the fragment
`scheme://[userinfo@]host[:port][/path][?query][#fragment]`: any valid
scheme is accepted, the host is what follows the last `@` of the
authority, a special scheme's host is lower-cased and (except for
`file`) must be non-empty, and an absent path reads `/` for special
schemes and empty otherwise. `none` models a thrown `TypeError`
(no scheme, or an empty host under a special scheme). Forms outside
this fragment (scheme-relative special URLs such as `https:foo`,
IPv6 literals, percent-encoding, backslash separators, IDNA hosts)
are outside the model. -/
def parseURL (s : String) : Option JsURL :=
  let cs := s.toList
  let schemeRun := cs.takeWhile isSchemeChar
  let scheme := String.mk (schemeRun.map Char.toLower)
  if schemeRun.isEmpty || !isAsciiAlpha (schemeRun.headD '0') then none
  else if !charsHavePre "://".toList (cs.drop schemeRun.length) then none
  else
    let rest := (cs.drop schemeRun.length).drop 3
    let authority := rest.takeWhile fun c => c != '/' && c != '?' && c != '#'
    let hostport := (authority.reverse.takeWhile fun c => c != '@').reverse
    let host := hostport.takeWhile fun c => c != ':'
    let isSpecial := specialSchemes.contains scheme
    if host.isEmpty && isSpecial && scheme != "file" then none
    else
      some
        { hostname :=
            if isSpecial then String.mk (host.map Char.toLower)
            else String.mk host
          pathname :=
            let path := (rest.drop authority.length).takeWhile
              fun c => c != '?' && c != '#'
            if path.isEmpty then (if isSpecial then "/" else "")
            else String.mk path }

/-- `isValidSlackWebhook` (`src/unnamed/part_003`): parse, then check
hostname and path shape; a parse failure is caught and yields false. -/
def isValidSlackWebhook (url : String) : Bool :=
  match parseURL url with
  | none => false
  | some parsed =>
      parsed.hostname = "hooks.slack.com"
        && charsHavePre "/services/".toList parsed.pathname.toList

/-- The workflow `sendToSlack` (`src/unnamed/part_002`): an unset
webhook returns `{success: false}` with no network I/O. Otherwise the
message blocks are built, and the dashboard button's URL evaluates
`new URL(env.SLACK_WEBHOOK_URL).origin` OUTSIDE the `try`/`catch` — a
configured but unparseable webhook URL therefore throws there, before
any fetch (`.error`). With a parseable URL the fetch happens exactly
once; its outcome `deliveryOutcome` (thrown or a non-ok response) is
caught and returned as a status object, never rethrown. The result is
the fetch-attempt count and the payload built. -/
def sendToSlackStep (webhookUrl : String) (insights : AnalysisResult)
    (deliveryOutcome : Except Unit Bool) :
    Except Unit (Nat × Option SlackPayload) :=
  if webhookUrl = "" then Except.ok (0, none)
  else
    match parseURL webhookUrl with
    | none => Except.error ()
    | some _ => Except.ok (1, some (buildSlackPayload insights))

/-- Observable effects of one `DailyAnalysisWorkflow.run`. -/
structure WorkflowTrace where
  insights : AnalysisResult
  payload : Option SlackPayload
  deliveryAttempts : Nat
  logs : List (LogEntry AnalysisResult)
deriving Repr, DecidableEq

/-- `DailyAnalysisWorkflow.run` over already-fetched records:
analyze → generate insights → send to Slack → log. The send step's
uncaught URL-parse throw aborts the run before `log-analysis`
(`.error`: no fetch, no log row); otherwise exactly one log row is
written and the fetch outcome never gates it. -/
def workflowRun (records : List FeedbackRecord) (aiConfigured : Bool)
    (aiOutcome : Except Unit (Option String)) (webhookUrl : String)
    (deliveryOutcome : Except Unit Bool) (nowIso : String) :
    Except Unit WorkflowTrace :=
  let analysis := analyzeWithAI records aiConfigured aiOutcome
  let insights := generateInsights analysis
  match sendToSlackStep webhookUrl insights deliveryOutcome with
  | Except.error _ => Except.error ()
  | Except.ok (attempts, payload) =>
      Except.ok
        { insights := insights
          payload := payload
          deliveryAttempts := attempts
          logs := [mkLogEntry nowIso insights] }

/-- Observable effects of one `handleScheduled` run. -/
structure SchedTrace where
  analysis : Option AnalysisResultS
  payload : Option SlackPayload
  deliveryAttempts : Nat
  logs : List (LogEntry AnalysisResultS)
deriving Repr, DecidableEq

/-- `handleScheduled` over already-fetched records: when the fetch is
empty the handler only logs to the console and returns — no analysis,
no delivery, no `analysis_logs` row; otherwise analyze, send to Slack
when the webhook is configured, then log. -/
def handleScheduledRun (records : List FeedbackRecord) (aiConfigured : Bool)
    (aiOutcome : Except Unit (Option String)) (webhookUrl : Option String)
    (deliveryOutcome : Except Unit Bool) (nowIso : String) : SchedTrace :=
  if records.length = 0 then
    { analysis := none, payload := none, deliveryAttempts := 0, logs := [] }
  else
    let analysis := analyzeFeedback records aiConfigured aiOutcome
    { analysis := some analysis
      payload :=
        if jsTruthy webhookUrl then
          some (buildSlackPayloadS analysis records)
        else none
      deliveryAttempts := if jsTruthy webhookUrl then 1 else 0
      logs := [mkLogEntryS nowIso analysis] }

theorem keysBump (m : List (String × Nat)) (k x : String) :
    x ∈ (bump m k).map Prod.fst → x = k ∨ x ∈ m.map Prod.fst := by
  induction m with
  | nil => simp [bump]
  | cons p rest ih =>
      obtain ⟨k', v⟩ := p
      by_cases h : k' = k
      · simp [bump, h]
      · simp only [bump, if_neg h, List.map_cons, List.mem_cons]
        rintro (rfl | hx)
        · exact Or.inr (Or.inl rfl)
        · rcases ih hx with h' | h'
          · exact Or.inl h'
          · exact Or.inr (Or.inr h')

theorem keysFoldlBump (ws : List String) (m : List (String × Nat))
    (x : String) :
    x ∈ (ws.foldl bump m).map Prod.fst → x ∈ ws ∨ x ∈ m.map Prod.fst := by
  induction ws generalizing m with
  | nil => simp
  | cons w ws ih =>
      intro hx
      rcases ih (bump m w) hx with h | h
      · exact Or.inl (List.mem_cons_of_mem _ h)
      · rcases keysBump m w x h with rfl | h'
        · exact Or.inl (List.mem_cons_self _ _)
        · exact Or.inr h'

theorem keysWordFreq (records : List FeedbackRecord) (x : String) :
    x ∈ (wordFreq records).map Prod.fst →
      ∃ r ∈ records, x ∈ keptTokens r := by
  suffices h : ∀ (recs : List FeedbackRecord) (m : List (String × Nat)),
      x ∈ (recs.foldl (fun m r => (keptTokens r).foldl bump m) m).map
        Prod.fst →
      (∃ r ∈ recs, x ∈ keptTokens r) ∨ x ∈ m.map Prod.fst by
    intro hx
    rcases h records [] hx with h' | h'
    · exact h'
    · simp at h'
  intro recs
  induction recs with
  | nil => simp
  | cons r rs ih =>
      intro m hx
      rcases ih _ hx with h | h
      · obtain ⟨r', hr', hx'⟩ := h
        exact Or.inl ⟨r', List.mem_cons_of_mem _ hr', hx'⟩
      · rcases keysFoldlBump _ _ _ h with h' | h'
        · exact Or.inl ⟨r, List.mem_cons_self _ _, h'⟩
        · exact Or.inr h'

/-- Every token that reaches the frequency map is an all-lower-alpha
word of length at least 3 that is not a stopword. -/
theorem keptTokens_valid (r : FeedbackRecord) (w : String) :
    w ∈ keptTokens r →
      3 ≤ w.length ∧ w.toList.all isLowerAlpha = true
        ∧ stopwordList.contains w = false := by
  intro hw
  simp only [keptTokens, List.mem_filter, Bool.not_eq_eq_eq_not,
    Bool.not_true] at hw
  obtain ⟨htok, hstop⟩ := hw
  simp only [tokenize, List.mem_map, List.mem_filter,
    Bool.and_eq_true, decide_eq_true_eq] at htok
  obtain ⟨run, ⟨_hrun, hlen, halpha⟩, rfl⟩ := htok
  refine ⟨?_, ?_, by simpa using hstop⟩
  · simpa [String.length] using hlen
  · simpa [String.toList] using halpha

/-- `strTake` of a non-empty string by a positive count is non-empty. -/
theorem strTake_ne_empty (s : String) (h : s ≠ "") (n : Nat) (hn : n ≠ 0) :
    strTake s n ≠ "" := by
  obtain ⟨l⟩ := s
  intro hcontra
  simp only [strTake, String.toList] at hcontra
  have : l.take n = [] := by
    have := congrArg String.data hcontra
    simpa using this
  rcases List.take_eq_nil_iff.mp this with h' | h'
  · exact hn h'
  · exact h (by subst h'; rfl)

/-- `sanitizeNullable(x) || d` is non-empty whenever `d` is: the
sanitizer yields `null` or a non-empty trimmed string. -/
theorem jsOr_sanitizeNullable_ne_empty (x : Option String) (d : String)
    (hd : d ≠ "") : jsOr (sanitizeNullable x) d ≠ "" := by
  cases x with
  | none => simpa [sanitizeNullable, jsOr] using hd
  | some s =>
      by_cases h : strTrim s = ""
      · simpa [sanitizeNullable, h, jsOr] using hd
      · simp [sanitizeNullable, h, jsOr]

/-- The spec's heuristic example input,
`"App is down, can't log in, losing money"` (character 39 is the
apostrophe). -/
def c7text : String :=
  "App is down, can" ++ String.singleton (Char.ofNat 39)
    ++ "t log in, losing money"

/-- A concrete P0-labelled record (parameterised by id so that several
distinct urgent records are easy to build). -/
def recP0 (n : String) : FeedbackRecord :=
  { id := n, source := "slack", raw_text := "Payment processing failed"
    sentiment := some "negative", priority := some "P0"
    category := some "bug", summary := some ("failure report " ++ n)
    priority_reason := none, created_at := "2026-02-06T12:00:00Z" }

/-- Six urgent records: more than the cap of 5. -/
def urgentSix : List FeedbackRecord :=
  [recP0 "a", recP0 "b", recP0 "c", recP0 "d", recP0 "e", recP0 "f"]

/-- A record whose `created_at` no date parser accepts. -/
def recBadDate : FeedbackRecord :=
  { id := "bad", source := "email", raw_text := "Export feature not working"
    sentiment := none, priority := none, category := none, summary := none
    priority_reason := none, created_at := "not-a-timestamp" }

/-- A record with a parseable `created_at` (see `dateParse0`). -/
def recGoodDate : FeedbackRecord :=
  { id := "good", source := "email", raw_text := "Docs are outdated"
    sentiment := none, priority := none, category := none, summary := none
    priority_reason := none, created_at := "2026-02-07T00:00:00Z" }

/-- A concrete stand-in for the platform date parser: accepts exactly
`recGoodDate`'s timestamp. -/
def dateParse0 (s : String) : Option Int :=
  if s = "2026-02-07T00:00:00Z" then some 100 else none

/-- An unlabeled record whose raw text repeats the word `slow`. -/
def recWords : FeedbackRecord :=
  { id := "w", source := "github", raw_text := "slow slow dashboard the and"
    sentiment := none, priority := none, category := none, summary := none
    priority_reason := none, created_at := "x" }

/-- A well-formed Slack webhook URL. -/
def slackUrl0 : String := "https://hooks.slack.com/services/T0/B0/X"

/-- A concrete insights value (the six urgent records analysed with no
AI binding). -/
def insights0 : AnalysisResult :=
  generateInsights (analyzeWithAI urgentSix false (Except.ok none))

/-- C1: For every list of feedback records, the aggregate statistics of
the `/api/stats` handler, of the scheduled handler's `analyzeFeedback`,
and of the workflow's `analyzeWithAI` satisfy
sum(byPriority) = sum(bySentiment) = sum(byCategory) = total record
count: each record contributes exactly one count to each distribution
map, via the `"unknown"`/`"other"` sentinel keys baked into the counting
passes. -/
theorem C1_each_record_counts_once (parse : String → Option Int) (now : Int)
    (records : List FeedbackRecord) (aiConfigured : Bool)
    (aiOutcome : Except Unit (Option String)) :
    (sumVals (aggregateStats parse now records).byPriority
        = (aggregateStats parse now records).total
      ∧ sumVals (aggregateStats parse now records).bySentiment
        = (aggregateStats parse now records).total
      ∧ sumVals (aggregateStats parse now records).byCategory
        = (aggregateStats parse now records).total)
    ∧ (sumVals (analyzeFeedback records aiConfigured aiOutcome).byPriority
        = (analyzeFeedback records aiConfigured aiOutcome).totalFeedback
      ∧ sumVals (analyzeFeedback records aiConfigured aiOutcome).bySentiment
        = (analyzeFeedback records aiConfigured aiOutcome).totalFeedback
      ∧ sumVals (analyzeFeedback records aiConfigured aiOutcome).byCategory
        = (analyzeFeedback records aiConfigured aiOutcome).totalFeedback)
    ∧ (sumVals (analyzeWithAI records aiConfigured aiOutcome).byPriority
        = (analyzeWithAI records aiConfigured aiOutcome).totalFeedback
      ∧ sumVals (analyzeWithAI records aiConfigured aiOutcome).bySentiment
        = (analyzeWithAI records aiConfigured aiOutcome).totalFeedback
      ∧ sumVals (analyzeWithAI records aiConfigured aiOutcome).byCategory
        = (analyzeWithAI records aiConfigured aiOutcome).totalFeedback) := by
  refine ⟨⟨?_, ?_, ?_⟩, ⟨?_, ?_, ?_⟩, ?_⟩
  · simp [aggregateStats, sumVals_countBy]
  · simp [aggregateStats, sumVals_countBy]
  · simp [aggregateStats, sumVals_countBy]
  · simp [analyzeFeedback, sumVals_countBy]
  · simp [analyzeFeedback, sumVals_countBy]
  · simp [analyzeFeedback, sumVals_countBy]
  · by_cases h : records.length = 0
    · simp [analyzeWithAI, h, sumVals]
    · simp only [analyzeWithAI, if_neg h]
      exact ⟨sumVals_countBy _ _, sumVals_countBy _ _, sumVals_countBy _ _⟩

/-- C2 counterexample: on a zero-record fetch, the workflow orchestrator
still attempts the notification delivery when a (parseable) webhook is
configured (the claim says the notification collaborator is not
called), and the scheduled-handler orchestrator writes no log entry at
all (the claim says exactly one log entry is still written). -/
theorem C2_counterexample :
    (workflowRun [] true (Except.ok none) slackUrl0 (Except.ok true)
        "2026-02-07T09:00:00Z").map (fun t => t.deliveryAttempts)
      = Except.ok 1
    ∧ (handleScheduledRun [] true (Except.ok none) (some slackUrl0)
        (Except.ok true) "2026-02-07T09:00:00Z").logs = [] :=
  ⟨rfl, rfl⟩

/-- C2 (amended): on a zero-record fetch the workflow orchestrator
computes a zero-valued AnalysisResult (totalFeedback = 0); with no
webhook configured it writes exactly one log entry holding it and makes
no delivery attempt; with a configured, parseable webhook URL the
delivery is still attempted once and one log entry is written; with a
configured but unparseable webhook URL the send step throws at URL
construction and the run aborts with no fetch and no log entry. The
scheduled-handler orchestrator instead terminates immediately with no
delivery attempt and no log entry. -/
theorem C2_amended_zero_records (aiConfigured : Bool)
    (aiOutcome : Except Unit (Option String)) (webhookUrl : String)
    (webhookOpt : Option String) (dOut : Except Unit Bool)
    (nowIso : String) :
    (generateInsights (analyzeWithAI [] aiConfigured
        aiOutcome)).totalFeedback = 0
    ∧ workflowRun [] aiConfigured aiOutcome webhookUrl dOut nowIso
      = (if webhookUrl = "" then
          Except.ok
            { insights := generateInsights (analyzeWithAI [] aiConfigured
                aiOutcome)
              payload := none
              deliveryAttempts := 0
              logs := [mkLogEntry nowIso (generateInsights (analyzeWithAI
                [] aiConfigured aiOutcome))] }
         else
          match parseURL webhookUrl with
          | none => Except.error ()
          | some _ =>
              Except.ok
                { insights := generateInsights (analyzeWithAI []
                    aiConfigured aiOutcome)
                  payload := some (buildSlackPayload (generateInsights
                    (analyzeWithAI [] aiConfigured aiOutcome)))
                  deliveryAttempts := 1
                  logs := [mkLogEntry nowIso (generateInsights
                    (analyzeWithAI [] aiConfigured aiOutcome))] })
    ∧ (handleScheduledRun [] aiConfigured aiOutcome webhookOpt dOut
        nowIso).logs = []
    ∧ (handleScheduledRun [] aiConfigured aiOutcome webhookOpt dOut
        nowIso).deliveryAttempts = 0 := by
  refine ⟨rfl, ?_, rfl, rfl⟩
  by_cases h : webhookUrl = ""
  · simp [workflowRun, sendToSlackStep, h]
  · cases hp : parseURL webhookUrl <;>
      simp [workflowRun, sendToSlackStep, h, hp]

/-- C3 counterexample: with the AI binding configured, mock mode off and
the inference call throwing, `inferFeedbackMetadata` returns `null`
(all-null labels) — not the fully-populated heuristic label set the
claim promises on transport failure. -/
theorem C3_counterexample :
    inferFeedbackMetadata ⟨true, none⟩ "The app is very slow"
        (Except.error ()) (fun _ => none) = none
    ∧ (none : Option AiAutoLabels)
        ≠ some (mockAiInference "The app is very slow") :=
  ⟨rfl, by simp⟩

/-- C3 (amended): the classifier never propagates an inference error:
when the collaborator is unavailable and deterministic mode is not
requested it returns all-null labels, when deterministic mock mode is
requested it returns the fully-populated heuristic label set, and on a
transport/exception-level failure of the inference call it also returns
all-null labels (`null`), not the heuristic set. -/
theorem C3_amended_classifier_fallback (aiConfigured : Bool)
    (useMockAi : Option String) (text : String)
    (jsonParse : String → Option AiAutoLabels) :
    inferFeedbackMetadata ⟨aiConfigured, useMockAi⟩ text (Except.error ())
        jsonParse
      = (if !aiConfigured && !jsTruthy useMockAi then none
         else if text = "" then none
         else if useMockAi = some "true" then some (mockAiInference text)
         else none)
    ∧ (mockAiInference text).sentiment.isSome = true
    ∧ (mockAiInference text).priority.isSome = true
    ∧ (mockAiInference text).category.isSome = true
    ∧ (mockAiInference text).summary.isSome = true
    ∧ (mockAiInference text).priority_reason.isSome = true :=
  ⟨rfl, rfl, rfl, rfl, rfl, rfl⟩

/-- C4: the workflow run's trace is identical whatever the delivery
outcome (thrown or non-success — `sendToSlack` catches internally), and
it always writes exactly one log entry whose `data` field is the
AnalysisResult computed before the delivery attempt. -/
theorem C4_logging_unconditional (records : List FeedbackRecord)
    (aiConfigured : Bool) (aiOutcome : Except Unit (Option String))
    (webhookUrl : String) (nowIso : String) (u : JsURL)
    (outcome1 outcome2 : Except Unit Bool)
    (hcfg : webhookUrl ≠ "") (hparse : parseURL webhookUrl = some u) :
    workflowRun records aiConfigured aiOutcome webhookUrl outcome1 nowIso
      = workflowRun records aiConfigured aiOutcome webhookUrl outcome2 nowIso
    ∧ workflowRun records aiConfigured aiOutcome webhookUrl outcome1 nowIso
      = Except.ok
          { insights := generateInsights (analyzeWithAI records aiConfigured
              aiOutcome)
            payload := some (buildSlackPayload (generateInsights
              (analyzeWithAI records aiConfigured aiOutcome)))
            deliveryAttempts := 1
            logs := [mkLogEntry nowIso (generateInsights (analyzeWithAI
              records aiConfigured aiOutcome))] }
    ∧ (mkLogEntry nowIso
        (generateInsights (analyzeWithAI records aiConfigured
          aiOutcome))).data
      = generateInsights (analyzeWithAI records aiConfigured aiOutcome) := by
  refine ⟨rfl, ?_, rfl⟩
  simp [workflowRun, sendToSlackStep, hcfg, hparse]

/-- C4 witness: with the well-formed webhook, a thrown delivery and a
non-success delivery produce the same run, which writes its single log
entry. -/
theorem C4_witness :
    workflowRun urgentSix false (Except.ok none) slackUrl0
        (Except.error ()) "2026-02-07T09:00:00Z"
      = workflowRun urgentSix false (Except.ok none) slackUrl0
        (Except.ok false) "2026-02-07T09:00:00Z"
    ∧ (workflowRun urgentSix false (Except.ok none) slackUrl0
        (Except.error ()) "2026-02-07T09:00:00Z").map
          (fun t => t.logs.length) = Except.ok 1 :=
  ⟨(C4_logging_unconditional urgentSix false (Except.ok none) slackUrl0
      "2026-02-07T09:00:00Z" ⟨"hooks.slack.com", "/services/T0/B0/X"⟩
      (Except.error ()) (Except.ok false) (by decide) (by decide)).1,
   rfl⟩

/-- C5 counterexample: with a parseable webhook URL whose host is not
`hooks.slack.com`, the workflow `sendToSlack` still attempts delivery
(one fetch) even though `isValidSlackWebhook` rejects the URL — the
validator is never consulted. -/
theorem C5_counterexample :
    (sendToSlackStep "https://attacker.example.com/exfil" insights0
        (Except.ok true)).map Prod.fst = Except.ok 1
    ∧ isValidSlackWebhook "https://attacker.example.com/exfil" = false := by
  refine ⟨rfl, by decide⟩

/-- C5 (amended): the helper `isValidSlackWebhook` does implement the
expected shape check (host `hooks.slack.com`, path starting with
`/services/`), but `sendToSlack` never invokes it: an unconfigured
webhook is a no-op; a configured webhook URL is first parsed by
`new URL` for the dashboard button outside the try/catch, so an
unparseable one throws before any fetch; and every parseable configured
URL — Slack-shaped or not — is fetched exactly once. -/
theorem C5_amended_delivery_gating (url : String)
    (insights : AnalysisResult) (o : Except Unit Bool) :
    (url = "" → sendToSlackStep url insights o = Except.ok (0, none))
    ∧ (∀ u, url ≠ "" → parseURL url = some u →
        sendToSlackStep url insights o
          = Except.ok (1, some (buildSlackPayload insights)))
    ∧ (url ≠ "" → parseURL url = none →
        sendToSlackStep url insights o = Except.error ())
    ∧ (isValidSlackWebhook url = true ↔
        ∃ u, parseURL url = some u ∧ u.hostname = "hooks.slack.com"
          ∧ charsHavePre "/services/".toList u.pathname.toList = true) := by
  refine ⟨?_, ?_, ?_, ?_⟩
  · intro h
    simp [sendToSlackStep, h]
  · intro u h hu
    simp [sendToSlackStep, h, hu]
  · intro h hu
    simp [sendToSlackStep, h, hu]
  · cases h : parseURL url with
    | none => simp [isValidSlackWebhook, h]
    | some u => simp [isValidSlackWebhook, h]

/-- C5 witness: a Slack-shaped URL is fetched once, and a scheme-less
configured URL makes the send step throw before any fetch. -/
theorem C5_witness :
    sendToSlackStep slackUrl0 insights0 (Except.ok true)
      = Except.ok (1, some (buildSlackPayload insights0))
    ∧ sendToSlackStep "hooks.slack.com/services/X" insights0
        (Except.ok true) = Except.error () :=
  ⟨(C5_amended_delivery_gating slackUrl0 insights0 (Except.ok true)).2.1
     ⟨"hooks.slack.com", "/services/T0/B0/X"⟩ (by decide) (by decide),
   (C5_amended_delivery_gating "hooks.slack.com/services/X" insights0
     (Except.ok true)).2.2.1 (by decide) (by decide)⟩

/-- C6 counterexample: with six P0 records, the workflow AnalysisResult
keeps only 5 urgent items (so they are not "exactly the P0/P1 records"),
and the delivered payload reports the capped count 5, not the true
count 6 — the full urgent count is not retained in the workflow. -/
theorem C6_counterexample :
    (workflowRun urgentSix false (Except.ok none) slackUrl0
        (Except.ok true) "2026-02-07T09:00:00Z").map
          (fun t => t.insights.urgentItems.length) = Except.ok 5
    ∧ (urgentSix.filter urgentKey).length = 6
    ∧ (workflowRun urgentSix false (Except.ok none) slackUrl0
        (Except.ok true) "2026-02-07T09:00:00Z").map
          (fun t => t.payload.map (fun p => p.urgentSection.map Prod.fst))
      = Except.ok (some (some 5)) :=
  ⟨rfl, by decide, rfl⟩

/-- C6 (amended): on a non-empty fetch the urgent items collected by the
analysis pass are exactly the P0/P1 records in order; the workflow's
AnalysisResult retains only their first 5, and its payload's urgent
section reports that capped list's length and lists at most 3 of them,
so a true count above 5 is lost there; the scheduled-handler variant
separately retains the full urgent count. -/
theorem C6_amended_urgent_handling (records : List FeedbackRecord)
    (aiConfigured : Bool) (aiOutcome : Except Unit (Option String))
    (h : records.length ≠ 0) :
    (analyzeWithAI records aiConfigured aiOutcome).urgentItems
      = records.filter urgentKey
    ∧ (generateInsights (analyzeWithAI records aiConfigured
        aiOutcome)).urgentItems
      = (records.filter urgentKey).take 5
    ∧ (buildSlackPayload (generateInsights (analyzeWithAI records
        aiConfigured aiOutcome))).urgentSection
      = (if ((records.filter urgentKey).take 5).length > 0 then
          some (((records.filter urgentKey).take 5).length,
            ((records.filter urgentKey).take 5).take 3)
         else none)
    ∧ (analyzeFeedback records aiConfigured aiOutcome).urgentCount
      = (records.filter urgentKey).length := by
  refine ⟨?_, ?_, ?_, ?_⟩
  · simp [analyzeWithAI, h]
  · simp [generateInsights, analyzeWithAI, h]
  · simp [buildSlackPayload, generateInsights, analyzeWithAI, h]
  · simp [analyzeFeedback]

/-- C6 witness: the amended statement instantiated on the six-record
urgent list. -/
theorem C6_witness :
    urgentSix.length ≠ 0
    ∧ (analyzeWithAI urgentSix false (Except.ok none)).urgentItems
      = urgentSix.filter urgentKey :=
  ⟨by decide,
   (C6_amended_urgent_handling urgentSix false (Except.ok none)
     (by decide)).1⟩

/-- C7 counterexample: on the spec's example text the heuristic
classifier returns sentiment `neutral`, not `negative` — none of the
negative keyword list's words occur in the text. -/
theorem C7_counterexample :
    (mockAiInference c7text).sentiment = some "neutral"
    ∧ (mockAiInference c7text).sentiment ≠ some "negative" := by
  refine ⟨by decide, by decide⟩

/-- C7 (amended): under the heuristic fallback, the input
`"App is down, can't log in, losing money"` is classified with
priority P0 (outage keyword `down`) and category `bug`, but
sentiment `neutral`. -/
theorem C7_amended_heuristic_example :
    (mockAiInference c7text).priority = some "P0"
    ∧ (mockAiInference c7text).sentiment = some "neutral"
    ∧ (mockAiInference c7text).category = some "bug" := by
  refine ⟨by decide, by decide, by decide⟩

/-- C8: `last7Days` counts exactly the records the date parser accepts
with an instant strictly greater than `now − 7 days`; a record with
unparseable `created_at` is never recent, yet still counts in `total`
and in each distribution map. -/
theorem C8_last7days_malformed_excluded (parse : String → Option Int)
    (now : Int) (records : List FeedbackRecord) :
    (aggregateStats parse now records).last7Days
      = (records.filter (isRecent parse now)).length
    ∧ (∀ r : FeedbackRecord, parse r.created_at = none →
        isRecent parse now r = false)
    ∧ (∀ (r : FeedbackRecord) (t : Int), parse r.created_at = some t →
        (isRecent parse now r = true ↔ now - sevenDaysMs < t))
    ∧ (aggregateStats parse now records).total = records.length
    ∧ sumVals (aggregateStats parse now records).byPriority = records.length
    ∧ sumVals (aggregateStats parse now records).bySentiment = records.length
    ∧ sumVals (aggregateStats parse now records).byCategory
      = records.length := by
  refine ⟨rfl, ?_, ?_, rfl, ?_, ?_, ?_⟩
  · intro r h
    simp [isRecent, h]
  · intro r t h
    simp [isRecent, h]
  · simp only [aggregateStats]
    exact sumVals_countBy _ _
  · simp only [aggregateStats]
    exact sumVals_countBy _ _
  · simp only [aggregateStats]
    exact sumVals_countBy _ _

/-- C8 witness: the unparseable timestamp of `recBadDate` is not recent,
and the parseable one of `recGoodDate` is recent exactly when strictly
inside the window. -/
theorem C8_witness :
    isRecent dateParse0 0 recBadDate = false
    ∧ (isRecent dateParse0 0 recGoodDate = true
        ↔ (0 : Int) - sevenDaysMs < 100) :=
  ⟨(C8_last7days_malformed_excluded dateParse0 0 []).2.1 recBadDate rfl,
   (C8_last7days_malformed_excluded dateParse0 0 []).2.2.1 recGoodDate 100
     rfl⟩

/-- C9: keyword extraction is deterministic/idempotent (same input, same
ranked list), is what `/api/stats` reports, is capped at 50, is sorted
descending by count, and every ranked word is an all-lowercase-alpha
token of length at least 3 that is not a stopword. -/
theorem C9_topwords_ranked (parse : String → Option Int) (now : Int)
    (records : List FeedbackRecord) :
    topWordsOf records = topWordsOf records
    ∧ (aggregateStats parse now records).topWords = topWordsOf records
    ∧ (topWordsOf records).length ≤ 50
    ∧ List.Pairwise (fun a b => b.2 ≤ a.2) (topWordsOf records)
    ∧ ∀ p ∈ topWordsOf records,
        3 ≤ p.1.length ∧ p.1.toList.all isLowerAlpha = true
          ∧ stopwordList.contains p.1 = false := by
  refine ⟨rfl, rfl, ?_, ?_, ?_⟩
  · simp only [topWordsOf]
    exact List.length_take_le 50 (sortDescBy Prod.snd (wordFreq records))
  · exact List.Pairwise.sublist (List.take_sublist _ _)
      (pairwise_sortDescBy Prod.snd (wordFreq records))
  · intro p hp
    have hp1 : p ∈ sortDescBy Prod.snd (wordFreq records) :=
      (List.take_sublist _ _).subset hp
    have hp2 := mem_sortDescBy _ _ _ hp1
    have hkey : p.1 ∈ (wordFreq records).map Prod.fst :=
      List.mem_map_of_mem _ hp2
    obtain ⟨r, _hr, htok⟩ := keysWordFreq records p.1 hkey
    exact keptTokens_valid r p.1 htok

/-- C9 witness: on the single-record list `recWords` the ranked list
contains `("slow", 2)`, which satisfies the token shape facts. -/
theorem C9_witness :
    ("slow", 2) ∈ topWordsOf [recWords]
    ∧ (3 ≤ ("slow", 2).1.length
        ∧ ("slow", 2).1.toList.all isLowerAlpha = true
        ∧ stopwordList.contains ("slow", 2).1 = false) :=
  ⟨by decide,
   (C9_topwords_ranked dateParse0 0 [recWords]).2.2.2.2 ("slow", 2)
     (by decide)⟩

/-- C10: every record the ingest handler stores has a non-null,
non-empty summary: the caller/classifier summary is sanitized, and when
both are absent or blank the summary falls back to the first 120
characters of the already-validated non-empty raw text. -/
theorem C10_ingested_summary_nonempty (payload : IngestPayload)
    (aiLabels : Option AiAutoLabels) (nowIso newId : String)
    (r : FeedbackRecord)
    (h : postIngest payload aiLabels nowIso newId = some r) :
    ∃ s, r.summary = some s ∧ s ≠ "" := by
  simp only [postIngest] at h
  split at h
  · cases h
  · rename_i hcond
    rw [Option.some.injEq] at h
    subst h
    refine ⟨_, rfl, ?_⟩
    apply jsOr_sanitizeNullable_ne_empty
    apply strTake_ne_empty _ _ 120 (by norm_num)
    intro hrt
    apply hcond
    simp [hrt]

/-- A concrete valid ingest body. -/
def ingestPayload0 : IngestPayload :=
  { source := some "github", raw_text := some " App crashes on login " }

/-- C10 witness: the ingest handler stores that body, and the stored
record's summary is non-null and non-empty. -/
theorem C10_witness :
    ∃ r, postIngest ingestPayload0 none "2026-02-07T09:00:00Z" "id-1"
        = some r
      ∧ ∃ s, r.summary = some s ∧ s ≠ "" :=
  ⟨_, rfl,
   C10_ingested_summary_nonempty ingestPayload0 none "2026-02-07T09:00:00Z"
     "id-1" _ rfl⟩
